import Mathlib

/-!
Verification development for the mayo-clinic-validator pipeline orchestrator.

The definitions below are a shallow embedding of the Python sources:
  backend/pipeline/state.py   (ValidationState, AgentFinding, reducers)
  backend/pipeline/graph.py   (dispatch_agents, aggregate_node, human gate, graph wiring)
  backend/agents/*.py         (fetch, triage, the five agent nodes)
  backend/main.py             (endpoints, SSE event emission, resume flow)
  backend/db.py               (Postgres upsert of application-level metadata)

External collaborators (the scraper and each agent LLM call) are passed in
as explicit outcome values: an agent that would raise in Python receives an
Except.error outcome here.  Python float scores are modelled as rationals.
-/

/-- Lifecycle status values of `ValidationState.status` (pipeline/state.py). -/
inductive Status
  | pending
  | scraping
  | running
  | awaiting_human
  | approved
  | rejected
  | failed
deriving DecidableEq, Repr

/-- The literal strings used for `status` in the Python TypedDict. -/
def statusToString : Status → String
  | .pending => "pending"
  | .scraping => "scraping"
  | .running => "running"
  | .awaiting_human => "awaiting_human"
  | .approved => "approved"
  | .rejected => "rejected"
  | .failed => "failed"

/-- AgentFinding (pipeline/state.py): one Verdict Record produced by one agent. -/
structure AgentFinding where
  agent : String
  passed : Bool
  score : ℚ
  passed_checks : List String := []
  issues : List String := []
  recommendations : List String := []
deriving DecidableEq, Repr

/-- The routing-decision dict built by triage_node (agents/triage_agent.py).
The `agents_to_run` key is read back by dispatch_agents through `.get` with a
default, so it is modelled as optional; triage always sets it. -/
structure RoutingDecision where
  agents_to_run : Option (List String)
  agents_skipped : List String
  content_type : String
  routing_method : String
  reasoning : List (String × String)
deriving DecidableEq, Repr

/-- The scraped-content dict (tools/web_scraper.py output).  Only the keys the
agents branch on are modelled; the remaining keys (headings, og_tags, links,
structured_data, ...) are only interpolated into LLM prompts and never affect
control flow or state. -/
structure ScrapedContent where
  title : String := ""
  body_text : String := ""
  raw_html : String := ""
deriving DecidableEq, Repr

/-- ValidationState (pipeline/state.py).  The `messages` channel holds opaque
LangChain chat messages that no node ever writes or reads and is omitted. -/
structure ValidationState where
  validation_id : String
  url : String
  created_at : String
  requested_by : String
  scraped_content : Option ScrapedContent
  findings : List AgentFinding
  agent_statuses : List (String × String)
  status : Status
  overall_score : Option ℚ
  overall_passed : Option Bool
  human_decision : Option String
  human_feedback : Option String
  reviewed_by : Option String
  routing_decision : Option RoutingDecision
  skipped_agents : List String
  trace_url : Option String
  errors : List String
deriving DecidableEq, Repr

/-- A partial state update: the dict returned by one graph node.  A field
wrapped in an outer Option is a last-writer-wins channel whose key may or may
not be present in the returned dict; list fields use the append reducers
(operator.add) and are empty when the node does not touch them. -/
structure StateUpdate where
  scraped_content : Option (Option ScrapedContent) := none
  findings : List AgentFinding := []
  agent_statuses : List (String × String) := []
  status : Option Status := none
  overall_score : Option (Option ℚ) := none
  overall_passed : Option (Option Bool) := none
  human_decision : Option (Option String) := none
  human_feedback : Option (Option String) := none
  reviewed_by : Option (Option String) := none
  routing_decision : Option (Option RoutingDecision) := none
  skipped_agents : List String := []
  trace_url : Option (Option String) := none
  errors : List String := []
deriving DecidableEq, Repr

/-- Lookup in an insertion-ordered association list (a Python dict). -/
def alistGet (l : List (String × α)) (k : String) : Option α :=
  (l.find? (fun p => p.1 == k)).map Prod.snd

/-- Insert-or-replace keyed by the first component (dict assignment / SQL upsert). -/
def alistPut (l : List (String × α)) (k : String) (v : α) : List (String × α) :=
  if (l.find? (fun p => p.1 == k)).isSome then
    l.map (fun p => if p.1 == k then (k, v) else p)
  else
    l ++ [(k, v)]

/-- Python _merge_dicts (pipeline/state.py): the reducer for agent_statuses, i.e.
Python {**a, **b} — keys of a keep their position with values overridden by b,
keys only in b are appended. -/
def _merge_dicts (a b : List (String × String)) : List (String × String) :=
  (a.map fun p => (p.1, (alistGet b p.1).getD p.2))
    ++ b.filter (fun q => (alistGet a q.1).isNone)

/-- Apply one node update to the run state using the per-channel reducers of
pipeline/state.py: operator.add for findings, skipped_agents and errors,
_merge_dicts for agent_statuses, last-writer-wins for everything else.
Identity fields (validation_id, url, created_at, requested_by) are never
written by any node. -/
def applyUpdate (s : ValidationState) (u : StateUpdate) : ValidationState where
  validation_id := s.validation_id
  url := s.url
  created_at := s.created_at
  requested_by := s.requested_by
  scraped_content := u.scraped_content.getD s.scraped_content
  findings := s.findings ++ u.findings
  agent_statuses := _merge_dicts s.agent_statuses u.agent_statuses
  status := u.status.getD s.status
  overall_score := u.overall_score.getD s.overall_score
  overall_passed := u.overall_passed.getD s.overall_passed
  human_decision := u.human_decision.getD s.human_decision
  human_feedback := u.human_feedback.getD s.human_feedback
  reviewed_by := u.reviewed_by.getD s.reviewed_by
  routing_decision := u.routing_decision.getD s.routing_decision
  skipped_agents := s.skipped_agents ++ u.skipped_agents
  trace_url := u.trace_url.getD s.trace_url
  errors := s.errors ++ u.errors

/-- Python round() restricted to exact rationals: round half to even. -/
def pyRound (x : ℚ) : ℤ :=
  if x - ⌊x⌋ < 1/2 then ⌊x⌋
  else if 1/2 < x - ⌊x⌋ then ⌊x⌋ + 1
  else if 2 ∣ ⌊x⌋ then ⌊x⌋ else ⌊x⌋ + 1

/-- round(x, 3) from aggregate_node. -/
def round3 (x : ℚ) : ℚ := (pyRound (x * 1000) : ℚ) / 1000

/-- round(x, 2) from the empty-tag agent score computation. -/
def round2 (x : ℚ) : ℚ := (pyRound (x * 100) : ℚ) / 100

/-- The structured JSON an agent LLM call parses into (the fields read out of
`result` in each agent).  An agent whose call raises gets an Except.error
instead of one of these. -/
structure LLMJudgment where
  passed : Bool
  score : ℚ
  passed_checks : List String := []
  issues : List String := []
  recommendations : List String := []
deriving DecidableEq, Repr

/-- fetch_content_node (agents/content_fetcher.py): the scrape outcome is the
external collaborator.  The Python error message wraps the URL in single-quote
characters, elided here. -/
def fetch_content_node (s : ValidationState) (scraped : Except String ScrapedContent) :
    StateUpdate :=
  match scraped with
  | .ok c => { scraped_content := some (some c), status := some .running }
  | .error e =>
      { scraped_content := some none
        status := some .failed
        errors := ["Failed to scrape URL " ++ s.url ++ ": " ++ e] }

/-- ALL_STANDARD_AGENTS (agents/triage_agent.py). -/
def ALL_STANDARD_AGENTS : List String := ["metadata", "editorial", "compliance", "accuracy"]

/-- HIL_EXTRA_AGENTS (agents/triage_agent.py). -/
def HIL_EXTRA_AGENTS : List String := ["empty_tag"]

/-- HIL_URL_PATTERNS (agents/triage_agent.py). -/
def HIL_URL_PATTERNS : List String := ["healthy-lifestyle"]

/-- Substring containment on character lists, for Python `pattern in url`. -/
def strContainsAux : List Char → List Char → Bool
  | _, [] => true
  | [], _ :: _ => false
  | h :: t, p :: q => (List.isPrefixOf (p :: q) (h :: t)) || strContainsAux t (p :: q)

/-- Python `pattern in hay` for strings. -/
def strContains (hay pat : String) : Bool := strContainsAux hay.toList pat.toList

/-- Python _is_hil_content (agents/triage_agent.py). -/
def _is_hil_content (url : String) : Bool :=
  HIL_URL_PATTERNS.any (fun pattern => strContains url pattern)

/-- triage_node (agents/triage_agent.py): deterministic URL-based routing.
Reads only state["url"]. -/
def triage_node (s : ValidationState) : StateUpdate :=
  let url := s.url
  let is_hil := _is_hil_content url
  let agents_to_run :=
    if is_hil then ALL_STANDARD_AGENTS ++ HIL_EXTRA_AGENTS else ALL_STANDARD_AGENTS
  let agents_skipped : List String := if is_hil then [] else HIL_EXTRA_AGENTS
  let content_type := if is_hil then "hil" else "standard"
  { routing_decision := some (some
      { agents_to_run := some agents_to_run
        agents_skipped := agents_skipped
        content_type := content_type
        routing_method := "url_based"
        reasoning := [("empty_tag",
          if is_hil then "run:hil_content" else "skip:not_hil_content")] })
    skipped_agents := agents_skipped
    status := some .running }

/-- AGENT_NODE_MAP (pipeline/graph.py). -/
def AGENT_NODE_MAP : List (String × String) :=
  [("metadata", "metadata_node"),
   ("editorial", "editorial_node"),
   ("compliance", "compliance_node"),
   ("accuracy", "accuracy_node"),
   ("empty_tag", "empty_tag_node")]

/-- dispatch_agents (pipeline/graph.py): which node names get a Send.  Every
Send carries the same dispatch-time snapshot of the state.  A missing
routing_decision falls back to the four standard agents; an agent name with no
entry in AGENT_NODE_MAP contributes no Send. -/
def dispatch_agents (s : ValidationState) : List String :=
  let agents_to_run :=
    match s.routing_decision with
    | some routing =>
        routing.agents_to_run.getD ["metadata", "editorial", "compliance", "accuracy"]
    | none => ["metadata", "editorial", "compliance", "accuracy"]
  agents_to_run.filterMap (fun agent_name => alistGet AGENT_NODE_MAP agent_name)

/-- aggregate_node (pipeline/graph.py): fan-in over however many agents ran. -/
def aggregate_node (s : ValidationState) : StateUpdate :=
  let findings := s.findings
  if findings.isEmpty then
    { overall_score := some (some 0)
      overall_passed := some (some false)
      status := some .awaiting_human }
  else
    { overall_score := some (some
        (round3 ((findings.map (fun f => f.score)).sum / (findings.length : ℚ))))
      overall_passed := some (some (findings.all (fun f => f.passed)))
      status := some .awaiting_human }

/-- run_metadata_agent (agents/metadata_agent.py).  The LLM chain invocation is
the external outcome; its except-branch builds a zero-score failed finding.
Note the update never touches the errors channel. -/
def run_metadata_agent (s : ValidationState) (llm : Except String LLMJudgment) :
    StateUpdate :=
  match s.scraped_content with
  | none =>
      { findings := [{ agent := "metadata", passed := false, score := 0,
                       issues := ["Content could not be scraped"],
                       recommendations := ["Ensure the URL is accessible and returns HTML"] }]
        agent_statuses := [("metadata", "done")] }
  | some _ =>
      match llm with
      | .ok result =>
          { findings := [{ agent := "metadata", passed := result.passed,
                           score := result.score, issues := result.issues,
                           recommendations := result.recommendations }]
            agent_statuses := [("metadata", "done")] }
      | .error e =>
          { findings := [{ agent := "metadata", passed := false, score := 0,
                           issues := ["Agent error: " ++ e],
                           recommendations := ["Check agent configuration and OpenAI API key"] }]
            agent_statuses := [("metadata", "done")] }

/-- run_editorial_agent (agents/editorial_agent.py). -/
def run_editorial_agent (s : ValidationState) (llm : Except String LLMJudgment) :
    StateUpdate :=
  match s.scraped_content with
  | none =>
      { findings := [{ agent := "editorial", passed := false, score := 0,
                       issues := ["Content could not be scraped"],
                       recommendations := ["Ensure the URL is accessible and returns HTML"] }]
        agent_statuses := [("editorial", "done")] }
  | some _ =>
      match llm with
      | .ok result =>
          { findings := [{ agent := "editorial", passed := result.passed,
                           score := result.score, passed_checks := result.passed_checks,
                           issues := result.issues,
                           recommendations := result.recommendations }]
            agent_statuses := [("editorial", "done")] }
      | .error e =>
          { findings := [{ agent := "editorial", passed := false, score := 0,
                           issues := ["Agent error: " ++ e],
                           recommendations := ["Check agent configuration and OpenAI API key"] }]
            agent_statuses := [("editorial", "done")] }

/-- run_compliance_agent (agents/compliance_agent.py): extra early return when
the scraped body text is empty (Python falsy check). -/
def run_compliance_agent (s : ValidationState) (llm : Except String LLMJudgment) :
    StateUpdate :=
  match s.scraped_content with
  | none =>
      { findings := [{ agent := "compliance", passed := false, score := 0,
                       issues := ["Content could not be scraped"],
                       recommendations := ["Ensure the URL is accessible and returns HTML"] }]
        agent_statuses := [("compliance", "done")] }
  | some content =>
      if content.body_text = "" then
        { findings := [{ agent := "compliance", passed := false, score := 0,
                         issues := ["No body text available for compliance review"],
                         recommendations := ["Ensure the page has extractable text content"] }]
          agent_statuses := [("compliance", "done")] }
      else
        match llm with
        | .ok result =>
            { findings := [{ agent := "compliance", passed := result.passed,
                             score := result.score, passed_checks := result.passed_checks,
                             issues := result.issues,
                             recommendations := result.recommendations }]
              agent_statuses := [("compliance", "done")] }
        | .error e =>
            { findings := [{ agent := "compliance", passed := false, score := 0,
                             issues := ["Agent error: " ++ e],
                             recommendations := ["Check agent configuration and OpenAI API key"] }]
              agent_statuses := [("compliance", "done")] }

/-- run_accuracy_agent (agents/accuracy_agent.py).  The RAG retrieval only
contributes text to the prompt (its own failure is folded into that text), so
only the LLM outcome is an explicit input. -/
def run_accuracy_agent (s : ValidationState) (llm : Except String LLMJudgment) :
    StateUpdate :=
  match s.scraped_content with
  | none =>
      { findings := [{ agent := "accuracy", passed := false, score := 0,
                       issues := ["Content could not be scraped"],
                       recommendations := ["Ensure the URL is accessible and returns HTML"] }]
        agent_statuses := [("accuracy", "done")] }
  | some content =>
      if content.body_text = "" then
        { findings := [{ agent := "accuracy", passed := false, score := 0,
                         issues := ["No body text available for accuracy review"],
                         recommendations := ["Ensure the page has extractable text content"] }]
          agent_statuses := [("accuracy", "done")] }
      else
        match llm with
        | .ok result =>
            { findings := [{ agent := "accuracy", passed := result.passed,
                             score := result.score, passed_checks := result.passed_checks,
                             issues := result.issues,
                             recommendations := result.recommendations }]
              agent_statuses := [("accuracy", "done")] }
        | .error e =>
            { findings := [{ agent := "accuracy", passed := false, score := 0,
                             issues := ["Agent error: " ++ e],
                             recommendations := ["Check agent configuration and OpenAI API key"] }]
              agent_statuses := [("accuracy", "done")] }

/-- One (tag, line number, issue type) entry from _scan_html in
agents/empty_tag_agent.py. -/
structure TagIssue where
  tag : String
  line : ℕ
  kind : String
deriving DecidableEq, Repr

/-- DEDUCTION_PER_ISSUE (agents/empty_tag_agent.py). -/
def DEDUCTION_PER_ISSUE : ℚ := 5 / 100

/-- PASS_THRESHOLD (agents/empty_tag_agent.py). -/
def PASS_THRESHOLD : ℚ := 8 / 10

/-- The issue description strings built by run_empty_tag_agent. -/
def tagIssueDescription (t : TagIssue) : String :=
  if t.kind = "self-closing" then
    "Self-closing <" ++ t.tag ++ "/> at line " ++ toString t.line ++ " — should have content"
  else
    "Empty <" ++ t.tag ++ "></" ++ t.tag ++ "> at line " ++ toString t.line
      ++ " — tag exists but has no content"

/-- run_empty_tag_agent (agents/empty_tag_agent.py).  The regex scan
_scan_html over the raw HTML is passed in as its result list: no claim
constrains the regex internals, and every branch below follows the source. -/
def run_empty_tag_agent (s : ValidationState) (tag_issues : List TagIssue) :
    StateUpdate :=
  match s.scraped_content with
  | none =>
      { findings := [{ agent := "empty_tag", passed := false, score := 0,
                       issues := ["Content could not be scraped"],
                       recommendations := ["Ensure the URL is accessible and returns HTML"] }]
        agent_statuses := [("empty_tag", "done")] }
  | some content =>
      if content.raw_html = "" then
        { findings := [{ agent := "empty_tag", passed := true, score := 1,
                         passed_checks := ["Raw HTML not available — skipping empty tag scan"] }]
          agent_statuses := [("empty_tag", "done")] }
      else if tag_issues.isEmpty then
        { findings := [{ agent := "empty_tag", passed := true, score := 1,
                         passed_checks := ["No self-closing or empty content tags found"] }]
          agent_statuses := [("empty_tag", "done")] }
      else
        let score := round2 (max 0 (1 - (tag_issues.length : ℚ) * DEDUCTION_PER_ISSUE))
        { findings := [{ agent := "empty_tag", passed := decide (PASS_THRESHOLD ≤ score),
                         score := score, passed_checks := [],
                         issues := tag_issues.map tagIssueDescription,
                         recommendations := ["Fix " ++ toString tag_issues.length
                           ++ " empty/self-closing tag(s) that should contain content"] }]
          agent_statuses := [("empty_tag", "done")] }

/-- The payload passed to Command(resume=...) by _resume_pipeline (main.py);
human_gate_node reads it back with .get calls. -/
structure ResumePayload where
  human_decision : Option String
  human_feedback : Option String
  reviewed_by : Option String
deriving DecidableEq, Repr

/-- The update human_gate_node (pipeline/graph.py) returns once interrupt()
hands back the resume payload. -/
def human_gate_node_resume (p : ResumePayload) : StateUpdate :=
  { human_decision := some p.human_decision
    human_feedback := some (some (p.human_feedback.getD ""))
    reviewed_by := some (some (p.reviewed_by.getD "web-user")) }

/-- route_after_human (pipeline/graph.py). -/
def route_after_human (s : ValidationState) : String :=
  if s.human_decision = some "approve" then "approve" else "reject"

/-- approve_node (pipeline/graph.py). -/
def approve_node (_ : ValidationState) : StateUpdate := { status := some .approved }

/-- reject_node (pipeline/graph.py). -/
def reject_node (_ : ValidationState) : StateUpdate := { status := some .rejected }

/-- The outcomes of all external collaborator calls one pipeline run makes:
the scraper, the four LLM-backed agents, and the empty-tag regex scan. -/
structure Oracles where
  scrape : Except String ScrapedContent
  metadataLLM : Except String LLMJudgment
  editorialLLM : Except String LLMJudgment
  complianceLLM : Except String LLMJudgment
  accuracyLLM : Except String LLMJudgment
  emptyTagIssues : List TagIssue
deriving Repr

/-- Node-name dispatch for the Send branches registered in build_graph. -/
def runAgentNode (node : String) (snapshot : ValidationState) (o : Oracles) : StateUpdate :=
  if node = "metadata_node" then run_metadata_agent snapshot o.metadataLLM
  else if node = "editorial_node" then run_editorial_agent snapshot o.editorialLLM
  else if node = "compliance_node" then run_compliance_agent snapshot o.complianceLLM
  else if node = "accuracy_node" then run_accuracy_agent snapshot o.accuracyLLM
  else if node = "empty_tag_node" then run_empty_tag_agent snapshot o.emptyTagIssues
  else {}

/-- Python _initial_state (main.py); created_at is the submission timestamp. -/
def _initial_state (vid url requested_by created_at : String) : ValidationState where
  validation_id := vid
  url := url
  created_at := created_at
  requested_by := requested_by
  scraped_content := none
  findings := []
  agent_statuses := []
  status := .pending
  overall_score := none
  overall_passed := none
  human_decision := none
  human_feedback := none
  reviewed_by := none
  routing_decision := none
  skipped_agents := []
  trace_url := none
  errors := []

/-- State after the fetch_content superstep. -/
def afterFetch (init : ValidationState) (o : Oracles) : ValidationState :=
  applyUpdate init (fetch_content_node init o.scrape)

/-- State after the triage superstep. -/
def afterTriage (init : ValidationState) (o : Oracles) : ValidationState :=
  applyUpdate (afterFetch init o) (triage_node (afterFetch init o))

/-- State at the fan-in point: all dispatched Send branches ran against the
dispatch-time snapshot and their updates were merged, in task order. -/
def faninState (init : ValidationState) (o : Oracles) : ValidationState :=
  let snapshot := afterTriage init o
  (dispatch_agents snapshot).foldl
    (fun acc node => applyUpdate acc (runAgentNode node snapshot o)) snapshot

/-- State after aggregate_node, i.e. the state persisted at the interrupt()
suspend point in human_gate_node. -/
def afterAggregate (init : ValidationState) (o : Oracles) : ValidationState :=
  applyUpdate (faninState init o) (aggregate_node (faninState init o))

/-- The sequence of full-state chunks astream(stream_mode="values") delivers
to _run_pipeline (main.py): the input values, then the state after each
superstep.  _run_pipeline stops consuming at the first chunk whose status is
failed (it emits error + done and returns, so no later superstep runs) or
awaiting_human (the graph is suspended at interrupt()). -/
def pipelineChunks (init : ValidationState) (o : Oracles) : List ValidationState :=
  let s1 := afterFetch init o
  if s1.status = .failed then [init, s1]
  else [init, s1, afterTriage init o, faninState init o, afterAggregate init o]

/-- Typed SSE events pushed onto a run queue by _run_pipeline and
_resume_pipeline (main.py). -/
inductive SSEEvent
  | statusEvent (st : String)
  | agent_complete (agent : String) (finding : Option AgentFinding)
  | hitl (score : Option ℚ) (passed : Option Bool) (findings : List AgentFinding)
  | errorEvent (message : String)
  | doneEvent (st : String)
deriving DecidableEq, Repr

/-- One iteration of the agent_statuses loop in _run_pipeline: emit
agent_complete when the entry says done and the agent is not yet in the
per-run emitted set, and record the agent in the set. -/
def agentCompleteStep (chunk : ValidationState) (acc : List SSEEvent × List String)
    (p : String × String) : List SSEEvent × List String :=
  if p.2 == "done" && !(acc.2.contains p.1) then
    (acc.1 ++ [SSEEvent.agent_complete p.1
        (chunk.findings.find? (fun f => f.agent == p.1))],
     acc.2 ++ [p.1])
  else acc

/-- The inner loop of _run_pipeline over one chunk: for each (agent, status)
entry, emit agent_complete when the status is done and the agent has not been
emitted before, recording it in the per-run emitted set. -/
def agentCompleteFold (chunk : ValidationState) (emitted : List String) :
    List SSEEvent × List String :=
  chunk.agent_statuses.foldl (agentCompleteStep chunk) ([], emitted)

/-- Events one chunk produces in _run_pipeline, the updated emitted set, and
whether the loop returns after this chunk (hitl or failed). -/
def processChunk (chunk : ValidationState) (emitted : List String) :
    List SSEEvent × List String × Bool :=
  let statusEvents :=
    if chunk.status = .running then [SSEEvent.statusEvent "running"] else []
  let stepped := agentCompleteFold chunk emitted
  if chunk.status = .awaiting_human then
    (statusEvents ++ stepped.1
       ++ [SSEEvent.hitl chunk.overall_score chunk.overall_passed chunk.findings],
     stepped.2, true)
  else if chunk.status = .failed then
    (statusEvents ++ stepped.1
       ++ [SSEEvent.errorEvent
             (if chunk.errors.isEmpty then "Validation failed"
              else String.intercalate "; " chunk.errors),
           SSEEvent.doneEvent "failed"],
     stepped.2, true)
  else (statusEvents ++ stepped.1, stepped.2, false)

/-- The chunk-consuming loop of _run_pipeline: threads the per-run emitted
set through the chunks and stops at the first suspending or failing chunk. -/
def emitEvents : List ValidationState → List String → List SSEEvent
  | [], _ => []
  | chunk :: rest, emitted =>
    let step := processChunk chunk emitted
    if step.2.2 then step.1 else step.1 ++ emitEvents rest step.2.1

/-- Full event stream of one _run_pipeline invocation: the initial scraping
status event, then the per-chunk events with a fresh emitted set
(emitted_agents[vid] = set()). -/
def _run_pipeline_events (init : ValidationState) (o : Oracles) : List SSEEvent :=
  SSEEvent.statusEvent "scraping" :: emitEvents (pipelineChunks init o) []

/-- Number of agent_complete events for one agent name in a stream. -/
def countAgentComplete (events : List SSEEvent) (a : String) : ℕ :=
  events.countP (fun e =>
    match e with
    | SSEEvent.agent_complete b _ => b == a
    | _ => false)

/-- The validations table row written by upsert_validation (db.py): the
application-level projection of the run state.  scraped_content,
agent_statuses and messages are not persisted. -/
structure DbRow where
  id : String
  url : String
  requested_by : String
  created_at : String
  status : Status
  overall_score : Option ℚ
  overall_passed : Option Bool
  findings : List AgentFinding
  errors : List String
  human_decision : Option String
  human_feedback : Option String
  reviewed_by : Option String
  routing_decision : Option RoutingDecision
  skipped_agents : List String
  trace_url : Option String
deriving DecidableEq, Repr

/-- upsert_validation projection of a ValidationState (db.py). -/
def dbRowOf (s : ValidationState) : DbRow where
  id := s.validation_id
  url := s.url
  requested_by := s.requested_by
  created_at := s.created_at
  status := s.status
  overall_score := s.overall_score
  overall_passed := s.overall_passed
  findings := s.findings
  errors := s.errors
  human_decision := s.human_decision
  human_feedback := s.human_feedback
  reviewed_by := s.reviewed_by
  routing_decision := s.routing_decision
  skipped_agents := s.skipped_agents
  trace_url := s.trace_url

/-- Process-local server memory (main.py module globals): the in-memory
validation_store cache and the MemorySaver checkpointer the compiled graph
uses.  Both live only inside the uvicorn process; pipeline/graph.py notes that
MemorySaver restricts deployment to a single worker, and db.py notes that
MemorySaver stays in-memory while only application metadata goes to Postgres. -/
structure ServerMemory where
  validation_store : List (String × ValidationState)
  memory_saver : List (String × ValidationState)
deriving DecidableEq, Repr

/-- A deployment: the process memory plus the durable Postgres table. -/
structure AppSystem where
  server : ServerMemory
  db : List (String × DbRow)
deriving DecidableEq, Repr

/-- Record one streamed chunk the way _run_pipeline does: cache it in
validation_store, upsert it into Postgres, and (inside the graph) MemorySaver
checkpoints the channel state of the superstep. -/
def ingestChunk (sys : AppSystem) (vid : String) (chunk : ValidationState) : AppSystem where
  server :=
    { validation_store := alistPut sys.server.validation_store vid chunk
      memory_saver := alistPut sys.server.memory_saver vid chunk }
  db := alistPut sys.db vid (dbRowOf chunk)

/-- POST /api/validate followed by the _run_pipeline background task, driven
to the point where the task returns (suspension at the human gate, or
failure).  start_validation first stores and upserts the initial state. -/
def runToSuspend (sys : AppSystem) (vid url requested_by created_at : String)
    (o : Oracles) : AppSystem :=
  let init := _initial_state vid url requested_by created_at
  let sys0 : AppSystem :=
    { server :=
        { validation_store := alistPut sys.server.validation_store vid init
          memory_saver := sys.server.memory_saver }
      db := alistPut sys.db vid (dbRowOf init) }
  (pipelineChunks init o).foldl (fun acc chunk => ingestChunk acc vid chunk) sys0

/-- A uvicorn process restart: module globals (validation_store, sse_queues,
emitted_agents) and the MemorySaver checkpointer are reinitialised empty; the
Postgres validations table survives (db.py module docstring). -/
def restartProcess (sys : AppSystem) : AppSystem where
  server := { validation_store := [], memory_saver := [] }
  db := sys.db

/-- The status the decide endpoint sees for a run: the in-memory cache first,
then the Postgres row (main.py human_decision: state = validation_store.get(vid)
or await db.get_validation(vid)). -/
def lookupStatusForDecide (sys : AppSystem) (vid : String) : Option Status :=
  match alistGet sys.server.validation_store vid with
  | some s => some s.status
  | none => (alistGet sys.db vid).map (fun row => row.status)

/-- The chunks the graph yields when resumed with Command(resume=payload) from
the checkpointed suspend state: human_gate_node returns the payload fold,
then route_after_human picks approve or reject. -/
def resumeChunks (ck : ValidationState) (p : ResumePayload) : List ValidationState :=
  let s5 := applyUpdate ck (human_gate_node_resume p)
  let s6 := applyUpdate s5
    (if route_after_human s5 = "approve" then approve_node s5 else reject_node s5)
  [s5, s6]

/-- The final state a resumed run reaches (the last chunk of resumeChunks). -/
def resumeFinalState (ck : ValidationState) (p : ResumePayload) : ValidationState :=
  applyUpdate (applyUpdate ck (human_gate_node_resume p))
    (if route_after_human (applyUpdate ck (human_gate_node_resume p)) = "approve"
     then approve_node (applyUpdate ck (human_gate_node_resume p))
     else reject_node (applyUpdate ck (human_gate_node_resume p)))

/-- Python _resume_pipeline (main.py): resuming needs the LangGraph checkpoint for
the thread.  With MemorySaver that checkpoint exists only in process memory
(pipeline/graph.py NOTE, db.py docstring): when it is gone the astream call
raises, the except branch emits error + done(failed), and no state is written.
On success every resumed chunk is cached and upserted and the done event
carries the final stored status. -/
def _resume_pipeline (sys : AppSystem) (vid decision feedback reviewer_id : String) :
    AppSystem × String :=
  match alistGet sys.server.memory_saver vid with
  | none => (sys, "failed")
  | some ck =>
      let payload : ResumePayload :=
        { human_decision := some decision
          human_feedback := some feedback
          reviewed_by := some reviewer_id }
      let chunks := resumeChunks ck payload
      let sys2 := chunks.foldl (fun acc chunk => ingestChunk acc vid chunk) sys
      let finalStatus :=
        match alistGet sys2.server.validation_store vid with
        | some s => statusToString s.status
        | none => "unknown"
      (sys2, finalStatus)

/-- Result of POST /api/validate/{vid}/decide followed by the background
_resume_pipeline task it schedules. -/
structure DecideResult where
  response : Except (ℕ × String) String
  done_status : Option String
  system : AppSystem

/-- human_decision (main.py) composed with the _resume_pipeline task it
spawns: reject with 404 when the run is unknown, with 400 when its stored
status is not awaiting_human, both before any write; otherwise acknowledge
with "resuming" and run the resume task. -/
def decideAndResume (sys : AppSystem) (vid decision feedback reviewer_id : String) :
    DecideResult :=
  match lookupStatusForDecide sys vid with
  | none => { response := .error (404, "Validation not found"), done_status := none, system := sys }
  | some st =>
      if st ≠ Status.awaiting_human then
        { response := .error (400,
            "Cannot submit decision: current status is " ++ statusToString st)
          done_status := none
          system := sys }
      else
        let resumed := _resume_pipeline sys vid decision feedback reviewer_id
        { response := .ok "resuming", done_status := some resumed.2, system := resumed.1 }

/-- Remaining de-duplication allowance of one agent name: 1 until the agent
is in the emitted set, 0 afterwards. -/
def emAllow (em : List String) (a : String) : ℕ := if a ∈ em then 0 else 1

/-- Two partial updates whose agent_statuses dicts touch no common key, the
situation the per-step status map relies on: each dispatched step only writes
its own key. -/
def DisjointStatusKeys (u v : StateUpdate) : Prop :=
  ∀ k, alistGet u.agent_statuses k = none ∨ alistGet v.agent_statuses k = none

/-- Shape of the dict a dispatched agent node returns: it writes only the
append/union channels (findings, errors) and its own agent_statuses key, and
never a last-writer-wins channel. -/
def IsAgentShapedUpdate (u : StateUpdate) : Prop :=
  u.scraped_content = none ∧ u.status = none ∧ u.overall_score = none ∧
  u.overall_passed = none ∧ u.human_decision = none ∧ u.human_feedback = none ∧
  u.reviewed_by = none ∧ u.routing_decision = none ∧ u.trace_url = none

/-- What merge order cannot change: every last-writer-wins channel is equal,
the status dicts agree as maps (Python dict equality), and the append/union
channels hold the same elements up to order. -/
def MergeOutcomeEquiv (a b : ValidationState) : Prop :=
  a.validation_id = b.validation_id ∧ a.url = b.url ∧ a.created_at = b.created_at ∧
  a.requested_by = b.requested_by ∧ a.scraped_content = b.scraped_content ∧
  a.status = b.status ∧ a.overall_score = b.overall_score ∧
  a.overall_passed = b.overall_passed ∧ a.human_decision = b.human_decision ∧
  a.human_feedback = b.human_feedback ∧ a.reviewed_by = b.reviewed_by ∧
  a.routing_decision = b.routing_decision ∧ a.trace_url = b.trace_url ∧
  List.Perm a.findings b.findings ∧ List.Perm a.skipped_agents b.skipped_agents ∧
  List.Perm a.errors b.errors ∧
  ∀ k, alistGet a.agent_statuses k = alistGet b.agent_statuses k

/-- A concrete scraped page used in witnesses and counterexamples. -/
def cContent : ScrapedContent :=
  { title := "Page", body_text := "Some body text", raw_html := "<html></html>" }

/-- A non-HIL mayoclinic.org URL used in witnesses and counterexamples. -/
def cUrl : String := "https://www.mayoclinic.org/diseases-conditions/page"

/-- Oracles for a fully successful run over cContent. -/
def cOraclesOk : Oracles :=
  { scrape := .ok cContent
    metadataLLM := .ok { passed := true, score := 1 }
    editorialLLM := .ok { passed := true, score := 1 }
    complianceLLM := .ok { passed := true, score := 1 }
    accuracyLLM := .ok { passed := true, score := 1 }
    emptyTagIssues := [] }

/-- Oracles for a run whose scrape raises. -/
def cOraclesFail : Oracles :=
  { scrape := .error "boom"
    metadataLLM := .error "unused"
    editorialLLM := .error "unused"
    complianceLLM := .error "unused"
    accuracyLLM := .error "unused"
    emptyTagIssues := [] }

/-- Oracles for a run where only the metadata agent LLM call raises. -/
def cOraclesMetaFail : Oracles :=
  { cOraclesOk with metadataLLM := .error "boom" }

/-- A concrete partial update as the metadata agent returns on success. -/
def cUpd1 : StateUpdate :=
  { findings := [{ agent := "metadata", passed := true, score := 1 }]
    agent_statuses := [("metadata", "done")] }

/-- A concrete partial update as the accuracy agent returns on failure. -/
def cUpd2 : StateUpdate :=
  { findings := [{ agent := "accuracy", passed := false, score := 0 }]
    agent_statuses := [("accuracy", "done")] }

/-- A concrete pre-dispatch base state. -/
def cS0 : ValidationState := _initial_state "vid-1" cUrl "web-user" "t0"

/-- A concrete running state holding scraped content. -/
def cStateWithContent : ValidationState :=
  { cS0 with scraped_content := some cContent, status := .running }

/-- State carrying the spec example findings [0.9, 0.8, 1.0], all passed. -/
def cExampleA : ValidationState :=
  { cS0 with findings :=
      [{ agent := "metadata", passed := true, score := 9/10 },
       { agent := "editorial", passed := true, score := 8/10 },
       { agent := "compliance", passed := true, score := 1 }] }

/-- State carrying the spec example findings [0.9, 0.4], second failed. -/
def cExampleB : ValidationState :=
  { cS0 with findings :=
      [{ agent := "metadata", passed := true, score := 9/10 },
       { agent := "editorial", passed := false, score := 4/10 }] }

/-- The empty deployment: fresh process, empty validations table. -/
def cEmptySystem : AppSystem := { server := { validation_store := [], memory_saver := [] }, db := [] }

/-- A HIL (Health Information Library) mayoclinic.org URL. -/
def cUrlHil : String := "https://www.mayoclinic.org/healthy-lifestyle/adult-health"

/-- A routing decision naming one registered and one unregistered agent. -/
def cMysteryRouting : RoutingDecision :=
  { agents_to_run := some ["metadata", "mystery_agent"], agents_skipped := [],
    content_type := "standard", routing_method := "url_based", reasoning := [] }

/-! ### Association-list (Python dict) lemmas -/

lemma find?_map_keyfun (A : List (String × α)) (f : (String × α) → (String × β))
    (hf : ∀ p, (f p).1 = p.1) (k : String) :
    (A.map f).find? (fun p => p.1 == k) = (A.find? (fun p => p.1 == k)).map f := by
  induction A with
  | nil => rfl
  | cons p t ih =>
      by_cases hp : p.1 == k
      · simp [List.find?, hf, hp]
      · simp [List.find?, hf, hp, ih]

lemma find?_map_replace (t : List (String × α)) (k : String) (v : α)
    (h : (t.find? (fun p => p.1 == k)).isSome) :
    alistGet (t.map (fun p => if p.1 == k then (k, v) else p)) k = some v := by
  induction t with
  | nil => simp at h
  | cons p t ih =>
      by_cases hp : p.1 == k
      · simp [alistGet, List.find?, hp]
      · have h' : (t.find? (fun p => p.1 == k)).isSome := by
          simpa [List.find?, hp] using h
        simpa [alistGet, List.find?, hp] using ih h'

lemma alistGet_alistPut_same (l : List (String × α)) (k : String) (v : α) :
    alistGet (alistPut l k v) k = some v := by
  unfold alistPut
  split
  · exact find?_map_replace l k v (by assumption)
  · rename_i h
    have hnone : l.find? (fun p => p.1 == k) = none := by
      cases hf : l.find? (fun p => p.1 == k) with
      | none => rfl
      | some p => rw [hf] at h; simp at h
    simp [alistGet, List.find?_append, hnone, List.find?]

lemma alistGet_append (l1 l2 : List (String × α)) (k : String) :
    alistGet (l1 ++ l2) k = Option.or (alistGet l1 k) (alistGet l2 k) := by
  unfold alistGet
  rw [List.find?_append]
  cases List.find? (fun p => p.1 == k) l1 <;> simp

lemma alistGet_mergeLeft (A B : List (String × String)) (k : String) :
    alistGet (A.map (fun p => (p.1, (alistGet B p.1).getD p.2))) k
      = Option.map (fun v => (alistGet B k).getD v) (alistGet A k) := by
  show (List.find? (fun p => p.1 == k)
      (A.map fun p => (p.1, (alistGet B p.1).getD p.2))).map Prod.snd = _
  rw [find?_map_keyfun A (fun p => (p.1, (alistGet B p.1).getD p.2)) (fun _ => rfl) k]
  cases hA : A.find? (fun p => p.1 == k) with
  | none => simp [alistGet, hA]
  | some pa =>
      have hkey : pa.1 = k := by
        have := List.find?_some hA
        simpa using this
      simp [alistGet, hA, hkey]

lemma alistGet_cons (p : String × α) (t : List (String × α)) (k : String) :
    alistGet (p :: t) k = if p.1 == k then some p.2 else alistGet t k := by
  by_cases h : p.1 == k <;> simp [alistGet, List.find?_cons, h]

lemma alistGet_filter_keyabsent (B A : List (String × α)) (k : String)
    (hA : alistGet A k = none) :
    alistGet (B.filter (fun q => (alistGet A q.1).isNone)) k = alistGet B k := by
  induction B with
  | nil => rfl
  | cons q t ih =>
      rw [List.filter_cons]
      by_cases hq : q.1 == k
      · have hqk : q.1 = k := by simpa using hq
        have hkeep : (alistGet A q.1).isNone = true := by rw [hqk, hA]; rfl
        rw [hkeep, if_pos rfl, alistGet_cons, alistGet_cons]
        simp [hq, ih]
      · cases hfil : (alistGet A q.1).isNone with
        | false =>
            rw [if_neg (by simp), ih, alistGet_cons]
            simp [hq]
        | true =>
            rw [if_pos rfl, alistGet_cons, alistGet_cons]
            simp [hq, ih]

lemma alistGet_merge_dicts (A B : List (String × String)) (k : String) :
    alistGet (_merge_dicts A B) k = Option.or (alistGet B k) (alistGet A k) := by
  unfold _merge_dicts
  rw [alistGet_append, alistGet_mergeLeft]
  cases hA : alistGet A k with
  | none =>
      rw [alistGet_filter_keyabsent B A k hA]
      cases hB : alistGet B k <;> simp
  | some va => cases hB : alistGet B k <;> simp [hB]

/-! ### Structural facts about the agent node updates -/

lemma run_metadata_agent_findings (s : ValidationState) (l : Except String LLMJudgment) :
    (run_metadata_agent s l).findings.map (fun f => f.agent) = ["metadata"] := by
  unfold run_metadata_agent
  repeat' split
  all_goals rfl

lemma run_metadata_agent_statuses (s : ValidationState) (l : Except String LLMJudgment) :
    (run_metadata_agent s l).agent_statuses = [("metadata", "done")] := by
  unfold run_metadata_agent
  repeat' split
  all_goals rfl

lemma run_metadata_agent_shape (s : ValidationState) (l : Except String LLMJudgment) :
    IsAgentShapedUpdate (run_metadata_agent s l) := by
  unfold run_metadata_agent
  repeat' split
  all_goals exact ⟨rfl, rfl, rfl, rfl, rfl, rfl, rfl, rfl, rfl⟩

lemma run_editorial_agent_findings (s : ValidationState) (l : Except String LLMJudgment) :
    (run_editorial_agent s l).findings.map (fun f => f.agent) = ["editorial"] := by
  unfold run_editorial_agent
  repeat' split
  all_goals rfl

lemma run_editorial_agent_statuses (s : ValidationState) (l : Except String LLMJudgment) :
    (run_editorial_agent s l).agent_statuses = [("editorial", "done")] := by
  unfold run_editorial_agent
  repeat' split
  all_goals rfl

lemma run_editorial_agent_shape (s : ValidationState) (l : Except String LLMJudgment) :
    IsAgentShapedUpdate (run_editorial_agent s l) := by
  unfold run_editorial_agent
  repeat' split
  all_goals exact ⟨rfl, rfl, rfl, rfl, rfl, rfl, rfl, rfl, rfl⟩

lemma run_compliance_agent_findings (s : ValidationState) (l : Except String LLMJudgment) :
    (run_compliance_agent s l).findings.map (fun f => f.agent) = ["compliance"] := by
  unfold run_compliance_agent
  repeat' split
  all_goals rfl

lemma run_compliance_agent_statuses (s : ValidationState) (l : Except String LLMJudgment) :
    (run_compliance_agent s l).agent_statuses = [("compliance", "done")] := by
  unfold run_compliance_agent
  repeat' split
  all_goals rfl

lemma run_compliance_agent_shape (s : ValidationState) (l : Except String LLMJudgment) :
    IsAgentShapedUpdate (run_compliance_agent s l) := by
  unfold run_compliance_agent
  repeat' split
  all_goals exact ⟨rfl, rfl, rfl, rfl, rfl, rfl, rfl, rfl, rfl⟩

lemma run_accuracy_agent_findings (s : ValidationState) (l : Except String LLMJudgment) :
    (run_accuracy_agent s l).findings.map (fun f => f.agent) = ["accuracy"] := by
  unfold run_accuracy_agent
  repeat' split
  all_goals rfl

lemma run_accuracy_agent_statuses (s : ValidationState) (l : Except String LLMJudgment) :
    (run_accuracy_agent s l).agent_statuses = [("accuracy", "done")] := by
  unfold run_accuracy_agent
  repeat' split
  all_goals rfl

lemma run_accuracy_agent_shape (s : ValidationState) (l : Except String LLMJudgment) :
    IsAgentShapedUpdate (run_accuracy_agent s l) := by
  unfold run_accuracy_agent
  repeat' split
  all_goals exact ⟨rfl, rfl, rfl, rfl, rfl, rfl, rfl, rfl, rfl⟩

lemma run_empty_tag_agent_findings (s : ValidationState) (issues : List TagIssue) :
    (run_empty_tag_agent s issues).findings.map (fun f => f.agent) = ["empty_tag"] := by
  unfold run_empty_tag_agent
  repeat' split
  all_goals rfl

lemma run_empty_tag_agent_statuses (s : ValidationState) (issues : List TagIssue) :
    (run_empty_tag_agent s issues).agent_statuses = [("empty_tag", "done")] := by
  unfold run_empty_tag_agent
  repeat' split
  all_goals rfl

lemma run_empty_tag_agent_shape (s : ValidationState) (issues : List TagIssue) :
    IsAgentShapedUpdate (run_empty_tag_agent s issues) := by
  unfold run_empty_tag_agent
  repeat' split
  all_goals exact ⟨rfl, rfl, rfl, rfl, rfl, rfl, rfl, rfl, rfl⟩

lemma runAgentNode_shape (n : String) (s : ValidationState) (o : Oracles) :
    IsAgentShapedUpdate (runAgentNode n s o) := by
  unfold runAgentNode
  split_ifs
  · exact run_metadata_agent_shape s o.metadataLLM
  · exact run_editorial_agent_shape s o.editorialLLM
  · exact run_compliance_agent_shape s o.complianceLLM
  · exact run_accuracy_agent_shape s o.accuracyLLM
  · exact run_empty_tag_agent_shape s o.emptyTagIssues
  · exact ⟨rfl, rfl, rfl, rfl, rfl, rfl, rfl, rfl, rfl⟩

lemma runAgentNode_status_none (n : String) (s : ValidationState) (o : Oracles) :
    (runAgentNode n s o).status = none :=
  (runAgentNode_shape n s o).2.1

/-! ### Claim C9: triage routing is a pure function of the URL -/

/-- C9: the Classifier/Router (triage_node) is deterministic with no external
calls: any two states with the same URL produce the identical routing update
(same agents_to_run, agents_skipped, content_type and per-skipped-step
reason), since the decision is a pure function of the URL. -/
theorem C9_triage_pure_function_of_url (s t : ValidationState) (h : s.url = t.url) :
    triage_node s = triage_node t := by
  unfold triage_node
  rw [h]

/-- Witness for C9 at two concrete states that differ in everything except
the URL. -/
theorem C9_triage_pure_function_of_url_witness :
    triage_node cStateWithContent = triage_node cS0 :=
  C9_triage_pure_function_of_url cStateWithContent cS0 rfl

/-! ### Claim C10: dispatch follows the routing decision and the registry -/

/-- C10: dispatch_agents dispatches exactly the agents of the routing
decision that have a node registered in AGENT_NODE_MAP; a missing
routing_decision falls back to the four standard agents, and an unregistered
agent name is silently dropped (no error), as shown at a concrete state
listing a registered and an unregistered name. -/
theorem C10_dispatch_follows_registry (s : ValidationState) :
    (s.routing_decision = none →
      dispatch_agents s = ["metadata_node", "editorial_node", "compliance_node", "accuracy_node"]) ∧
    (∀ r, s.routing_decision = some r →
      dispatch_agents s
        = (r.agents_to_run.getD ["metadata", "editorial", "compliance", "accuracy"]).filterMap
            (fun agent_name => alistGet AGENT_NODE_MAP agent_name)) ∧
    dispatch_agents { s with routing_decision := some cMysteryRouting }
      = ["metadata_node"] := by
  refine ⟨fun h => ?_, fun r h => ?_, ?_⟩
  · simp [dispatch_agents, h, alistGet, AGENT_NODE_MAP]
  · simp [dispatch_agents, h]
  · simp [dispatch_agents, cMysteryRouting, alistGet, AGENT_NODE_MAP]

/-- Witness for C10 at a concrete state with no routing decision. -/
theorem C10_dispatch_follows_registry_witness :
    dispatch_agents cS0 = ["metadata_node", "editorial_node", "compliance_node", "accuracy_node"] :=
  (C10_dispatch_follows_registry cS0).1 rfl

/-! ### Claim C5: the aggregator is total and computes mean / conjunction -/

/-- C5: aggregate_node is a total pure function of the findings list: for a
non-empty list overall_score is the mean of the scores rounded to 3 decimals
and overall_passed is the conjunction of the per-verdict passed flags; the
empty list yields score 0.0 and passed false rather than an error; on the
spec examples, scores [0.9, 0.8, 1.0] all passed give 0.9 and true, and
[0.9 passed, 0.4 failed] gives passed = false. -/
theorem C5_aggregate_total_mean (s : ValidationState) :
    (s.findings ≠ [] →
      (aggregate_node s).overall_score
          = some (some (round3 ((s.findings.map (fun f => f.score)).sum / (s.findings.length : ℚ)))) ∧
      (aggregate_node s).overall_passed = some (some (s.findings.all (fun f => f.passed)))) ∧
    (s.findings = [] →
      (aggregate_node s).overall_score = some (some 0) ∧
      (aggregate_node s).overall_passed = some (some false)) ∧
    ((aggregate_node cExampleA).overall_score = some (some (9/10)) ∧
     (aggregate_node cExampleA).overall_passed = some (some true)) ∧
    (aggregate_node cExampleB).overall_passed = some (some false) := by
  refine ⟨fun h => ?_, fun h => ?_, ⟨?_, ?_⟩, ?_⟩
  · rw [aggregate_node, if_neg (by simpa [List.isEmpty_iff] using h)]
    exact ⟨rfl, rfl⟩
  · simp [aggregate_node, h]
  · show some (some (round3 ((9/10 + (8/10 + (1 + 0))) / 3))) = some (some (9/10))
    norm_num [round3, pyRound]
  · rfl
  · rfl

/-- Witness for C5: the non-empty and empty branches applied at concrete
states. -/
theorem C5_aggregate_total_mean_witness :
    (aggregate_node cExampleA).overall_passed = some (some (cExampleA.findings.all (fun f => f.passed)))
      ∧ (aggregate_node cS0).overall_score = some (some 0) :=
  ⟨((C5_aggregate_total_mean cExampleA).1 (by simp [cExampleA, cS0, _initial_state])).2,
   ((C5_aggregate_total_mean cS0).2.1 rfl).1⟩

/-! ### Claim C2: merge commutativity -/

lemma disjointStatusKeys_symm {u v : StateUpdate}
    (h : DisjointStatusKeys u v) : DisjointStatusKeys v u :=
  fun k => (h k).symm

lemma mergeEquiv_refl (a : ValidationState) : MergeOutcomeEquiv a a :=
  ⟨rfl, rfl, rfl, rfl, rfl, rfl, rfl, rfl, rfl, rfl, rfl, rfl, rfl,
   List.Perm.refl _, List.Perm.refl _, List.Perm.refl _, fun _ => rfl⟩

lemma mergeEquiv_trans {a b c : ValidationState}
    (h1 : MergeOutcomeEquiv a b) (h2 : MergeOutcomeEquiv b c) : MergeOutcomeEquiv a c := by
  obtain ⟨a1, a2, a3, a4, a5, a6, a7, a8, a9, a10, a11, a12, a13, af, ask, ae, ast⟩ := h1
  obtain ⟨b1, b2, b3, b4, b5, b6, b7, b8, b9, b10, b11, b12, b13, bf, bsk, be, bst⟩ := h2
  exact ⟨a1.trans b1, a2.trans b2, a3.trans b3, a4.trans b4, a5.trans b5, a6.trans b6,
    a7.trans b7, a8.trans b8, a9.trans b9, a10.trans b10, a11.trans b11, a12.trans b12,
    a13.trans b13, af.trans bf, ask.trans bsk, ae.trans be,
    fun k => (ast k).trans (bst k)⟩

lemma mergeEquiv_applyUpdate {a b : ValidationState} (u : StateUpdate)
    (h : MergeOutcomeEquiv a b) :
    MergeOutcomeEquiv (applyUpdate a u) (applyUpdate b u) := by
  obtain ⟨h1, h2, h3, h4, h5, h6, h7, h8, h9, h10, h11, h12, h13, hf, hsk, he, hst⟩ := h
  unfold MergeOutcomeEquiv applyUpdate
  refine ⟨h1, h2, h3, h4, by rw [h5], by rw [h6], by rw [h7], by rw [h8], by rw [h9],
    by rw [h10], by rw [h11], by rw [h12], by rw [h13],
    hf.append_right _, hsk.append_right _, he.append_right _, fun k => ?_⟩
  rw [alistGet_merge_dicts, alistGet_merge_dicts, hst k]

lemma mergeEquiv_swap (s : ValidationState) (u v : StateUpdate)
    (hu : IsAgentShapedUpdate u) (hv : IsAgentShapedUpdate v)
    (hd : DisjointStatusKeys u v) :
    MergeOutcomeEquiv (applyUpdate (applyUpdate s u) v) (applyUpdate (applyUpdate s v) u) := by
  obtain ⟨hu1, hu2, hu3, hu4, hu5, hu6, hu7, hu8, hu9⟩ := hu
  obtain ⟨hv1, hv2, hv3, hv4, hv5, hv6, hv7, hv8, hv9⟩ := hv
  refine ⟨rfl, rfl, rfl, rfl, ?_, ?_, ?_, ?_, ?_, ?_, ?_, ?_, ?_, ?_, ?_, ?_, fun k => ?_⟩
  · show v.scraped_content.getD (u.scraped_content.getD s.scraped_content)
        = u.scraped_content.getD (v.scraped_content.getD s.scraped_content)
    simp [hu1, hv1]
  · show v.status.getD (u.status.getD s.status) = u.status.getD (v.status.getD s.status)
    simp [hu2, hv2]
  · show v.overall_score.getD (u.overall_score.getD s.overall_score)
        = u.overall_score.getD (v.overall_score.getD s.overall_score)
    simp [hu3, hv3]
  · show v.overall_passed.getD (u.overall_passed.getD s.overall_passed)
        = u.overall_passed.getD (v.overall_passed.getD s.overall_passed)
    simp [hu4, hv4]
  · show v.human_decision.getD (u.human_decision.getD s.human_decision)
        = u.human_decision.getD (v.human_decision.getD s.human_decision)
    simp [hu5, hv5]
  · show v.human_feedback.getD (u.human_feedback.getD s.human_feedback)
        = u.human_feedback.getD (v.human_feedback.getD s.human_feedback)
    simp [hu6, hv6]
  · show v.reviewed_by.getD (u.reviewed_by.getD s.reviewed_by)
        = u.reviewed_by.getD (v.reviewed_by.getD s.reviewed_by)
    simp [hu7, hv7]
  · show v.routing_decision.getD (u.routing_decision.getD s.routing_decision)
        = u.routing_decision.getD (v.routing_decision.getD s.routing_decision)
    simp [hu8, hv8]
  · show v.trace_url.getD (u.trace_url.getD s.trace_url)
        = u.trace_url.getD (v.trace_url.getD s.trace_url)
    simp [hu9, hv9]
  · show ((s.findings ++ u.findings) ++ v.findings).Perm
        ((s.findings ++ v.findings) ++ u.findings)
    rw [List.append_assoc, List.append_assoc]
    exact List.Perm.append_left _ List.perm_append_comm
  · show ((s.skipped_agents ++ u.skipped_agents) ++ v.skipped_agents).Perm
        ((s.skipped_agents ++ v.skipped_agents) ++ u.skipped_agents)
    rw [List.append_assoc, List.append_assoc]
    exact List.Perm.append_left _ List.perm_append_comm
  · show ((s.errors ++ u.errors) ++ v.errors).Perm
        ((s.errors ++ v.errors) ++ u.errors)
    rw [List.append_assoc, List.append_assoc]
    exact List.Perm.append_left _ List.perm_append_comm
  · show alistGet (_merge_dicts (_merge_dicts s.agent_statuses u.agent_statuses)
          v.agent_statuses) k
        = alistGet (_merge_dicts (_merge_dicts s.agent_statuses v.agent_statuses)
          u.agent_statuses) k
    rw [alistGet_merge_dicts, alistGet_merge_dicts, alistGet_merge_dicts,
      alistGet_merge_dicts]
    rcases hd k with h | h <;> rw [h] <;> simp

lemma mergeEquiv_foldl (us : List StateUpdate) {a b : ValidationState}
    (h : MergeOutcomeEquiv a b) :
    MergeOutcomeEquiv (us.foldl applyUpdate a) (us.foldl applyUpdate b) := by
  induction us generalizing a b with
  | nil => exact h
  | cons u t ih => exact ih (mergeEquiv_applyUpdate u h)

/-- C2 counterexample: two dispatched-step updates (the metadata and accuracy
agents) merged in the two completion orders yield different findings lists —
operator.add on lists is order-sensitive, so the final Run State is not
literally identical as the claim states. -/
theorem C2_counterexample :
    ([cUpd1, cUpd2].foldl applyUpdate cS0).findings
      ≠ ([cUpd2, cUpd1].foldl applyUpdate cS0).findings := by
  decide

/-- C2 (amended): merging the partial updates of the dispatched steps in any
completion order yields the same Run State up to ordering of the appended
list channels: every last-writer-wins field is identical, the per-step status
map is identical as a map (each step only touches its own key), and the
findings, skipped_agents and errors lists hold the same elements as
multisets; the order of the findings list itself depends on merge order. -/
theorem C2_merge_order_equivalence (s : ValidationState) (us vs : List StateUpdate)
    (hshape : ∀ u ∈ us, IsAgentShapedUpdate u)
    (hdisj : List.Pairwise DisjointStatusKeys us)
    (hperm : us.Perm vs) :
    MergeOutcomeEquiv (us.foldl applyUpdate s) (vs.foldl applyUpdate s) := by
  revert hshape hdisj
  induction hperm generalizing s with
  | nil => exact fun _ _ => mergeEquiv_refl _
  | cons x p ih =>
      intro hs hd
      simp only [List.foldl_cons]
      exact ih (applyUpdate s x) (fun u hu => hs u (List.mem_cons_of_mem _ hu))
        (List.pairwise_cons.mp hd).2
  | swap x y t =>
      intro hs hd
      simp only [List.foldl_cons]
      have hxy : DisjointStatusKeys y x := (List.pairwise_cons.mp hd).1 x (List.mem_cons_self _ _)
      have hy : IsAgentShapedUpdate y := hs y (List.mem_cons_self _ _)
      have hx : IsAgentShapedUpdate x :=
        hs x (List.mem_cons_of_mem _ (List.mem_cons_self _ _))
      exact mergeEquiv_foldl t (mergeEquiv_swap s y x hy hx hxy)
  | trans p1 p2 ih1 ih2 =>
      intro hs hd
      have hs2 : ∀ u ∈ _, IsAgentShapedUpdate u := fun u hu => hs u (p1.mem_iff.mpr hu)
      have hd2 := (p1.pairwise_iff (fun h => disjointStatusKeys_symm h)).mp hd
      exact mergeEquiv_trans (ih1 s hs hd) (ih2 s hs2 hd2)

/-- Witness for C2 (amended): the two concrete agent updates merged in both
orders give findings lists that are permutations of each other. -/
theorem C2_merge_order_equivalence_witness :
    (([cUpd1, cUpd2].foldl applyUpdate cS0).findings).Perm
      (([cUpd2, cUpd1].foldl applyUpdate cS0).findings) := by
  obtain ⟨-, -, -, -, -, -, -, -, -, -, -, -, -, hf, -, -, -⟩ :=
    C2_merge_order_equivalence cS0 [cUpd1, cUpd2] [cUpd2, cUpd1]
      (by
        intro u hu
        rcases List.mem_cons.mp hu with rfl | hu
        · exact ⟨rfl, rfl, rfl, rfl, rfl, rfl, rfl, rfl, rfl⟩
        · rcases List.mem_singleton.mp hu with rfl
          exact ⟨rfl, rfl, rfl, rfl, rfl, rfl, rfl, rfl, rfl⟩)
      (by
        refine List.pairwise_cons.mpr ⟨?_, List.pairwise_singleton _ _⟩
        intro v hv k
        rcases List.mem_singleton.mp hv with rfl
        by_cases h : k = "accuracy"
        · subst h; left; rfl
        · right
          simp only [cUpd2, alistGet, List.find?]
          rw [show (("accuracy" == k) : Bool) = false from
            beq_eq_false_iff_ne.mpr fun hc => h hc.symm]
          rfl)
      (List.Perm.swap _ _ _)
  exact hf

/-! ### Claim C8: agent_complete de-duplication -/

lemma countAgentComplete_append (l1 l2 : List SSEEvent) (a : String) :
    countAgentComplete (l1 ++ l2) a = countAgentComplete l1 a + countAgentComplete l2 a :=
  List.countP_append _ _ _

lemma agentCompleteStep_measure (chunk : ValidationState)
    (acc : List SSEEvent × List String) (p : String × String) (a : String) :
    countAgentComplete (agentCompleteStep chunk acc p).1 a
        + emAllow (agentCompleteStep chunk acc p).2 a
      = countAgentComplete acc.1 a + emAllow acc.2 a := by
  unfold agentCompleteStep
  split
  · rename_i hcond
    have hnot : ¬ p.1 ∈ acc.2 := by
      simp only [Bool.and_eq_true, Bool.not_eq_true'] at hcond
      simpa using hcond.2
    by_cases hpa : p.1 = a
    · subst hpa
      have h1 : countAgentComplete
          (acc.1 ++ [SSEEvent.agent_complete p.1
            (chunk.findings.find? (fun f => f.agent == p.1))]) p.1
          = countAgentComplete acc.1 p.1 + 1 := by
        simp [countAgentComplete, List.countP_append, List.countP_cons]
      have h2 : emAllow (acc.2 ++ [p.1]) p.1 = 0 := by simp [emAllow]
      have h3 : emAllow acc.2 p.1 = 1 := by simp [emAllow, hnot]
      simp only [h1, h2, h3]
    · have h1 : countAgentComplete
          (acc.1 ++ [SSEEvent.agent_complete p.1
            (chunk.findings.find? (fun f => f.agent == p.1))]) a
          = countAgentComplete acc.1 a := by
        simp [countAgentComplete, List.countP_append, List.countP_cons, hpa]
      have h2 : emAllow (acc.2 ++ [p.1]) a = emAllow acc.2 a := by
        simp only [emAllow, List.mem_append, List.mem_singleton]
        have : ¬ a = p.1 := fun hc => hpa hc.symm
        simp [this]
      simp only [h1, h2]
  · rfl

lemma foldl_agentCompleteStep_measure (chunk : ValidationState) (a : String)
    (statuses : List (String × String)) :
    ∀ acc : List SSEEvent × List String,
      countAgentComplete (statuses.foldl (agentCompleteStep chunk) acc).1 a
          + emAllow (statuses.foldl (agentCompleteStep chunk) acc).2 a
        = countAgentComplete acc.1 a + emAllow acc.2 a := by
  induction statuses with
  | nil => intro acc; rfl
  | cons p t ih =>
      intro acc
      rw [List.foldl_cons, ih (agentCompleteStep chunk acc p),
        agentCompleteStep_measure]

lemma agentCompleteFold_measure (chunk : ValidationState) (emitted : List String)
    (a : String) :
    countAgentComplete (agentCompleteFold chunk emitted).1 a
        + emAllow (agentCompleteFold chunk emitted).2 a
      = emAllow emitted a := by
  unfold agentCompleteFold
  rw [foldl_agentCompleteStep_measure]
  simp [countAgentComplete]

lemma processChunk_measure (chunk : ValidationState) (emitted : List String) (a : String) :
    countAgentComplete (processChunk chunk emitted).1 a
        + emAllow (processChunk chunk emitted).2.1 a
      = emAllow emitted a := by
  unfold processChunk
  have hf := agentCompleteFold_measure chunk emitted a
  split_ifs <;>
    simpa [countAgentComplete_append, countAgentComplete, List.countP_cons] using hf

lemma emitEvents_count_le (chunks : List ValidationState) :
    ∀ (emitted : List String) (a : String),
      countAgentComplete (emitEvents chunks emitted) a ≤ emAllow emitted a := by
  induction chunks with
  | nil => intro emitted a; simp [emitEvents, countAgentComplete, List.countP_nil]
  | cons c rest ih =>
      intro emitted a
      have hrw : emitEvents (c :: rest) emitted
          = (if (processChunk c emitted).2.2 then (processChunk c emitted).1
             else (processChunk c emitted).1
               ++ emitEvents rest (processChunk c emitted).2.1) := rfl
      have hp := processChunk_measure c emitted a
      rw [hrw]
      split
      · omega
      · rw [countAgentComplete_append]
        have hr := ih (processChunk c emitted).2.1 a
        omega

/-- C8: for every run, the agent_complete (step-completion) event for a given
agent name is emitted at most once over the event stream, no matter how many
successive state snapshots report that agent as done: the de-duplication set
emitted_agents is keyed per run and per agent name.  This holds both for an
arbitrary snapshot stream fed to the emitter loop and for the stream of a
full _run_pipeline invocation. -/
theorem C8_agent_complete_emitted_at_most_once (chunks : List ValidationState)
    (init : ValidationState) (o : Oracles) (a : String) :
    countAgentComplete (emitEvents chunks []) a ≤ 1 ∧
    countAgentComplete (_run_pipeline_events init o) a ≤ 1 := by
  constructor
  · simpa [emAllow] using emitEvents_count_le chunks [] a
  · have h := emitEvents_count_le (pipelineChunks init o) [] a
    have hrw : countAgentComplete (_run_pipeline_events init o) a
        = countAgentComplete (emitEvents (pipelineChunks init o) []) a := by
      simp [_run_pipeline_events, countAgentComplete, List.countP_cons]
    rw [hrw]
    simpa [emAllow] using h

/-! ### Claim C6: no backward lifecycle transition -/

lemma foldl_runAgentNode_status (snap : ValidationState) (o : Oracles)
    (nodes : List String) :
    ∀ s : ValidationState,
      (nodes.foldl (fun acc n => applyUpdate acc (runAgentNode n snap o)) s).status
        = s.status := by
  induction nodes with
  | nil => intro s; rfl
  | cons n t ih =>
      intro s
      rw [List.foldl_cons, ih]
      show (applyUpdate s (runAgentNode n snap o)).status = s.status
      simp [applyUpdate, runAgentNode_status_none]

lemma afterFetch_status_ok (init : ValidationState) (o : Oracles) (c : ScrapedContent)
    (h : o.scrape = Except.ok c) : (afterFetch init o).status = Status.running := by
  simp [afterFetch, applyUpdate, fetch_content_node, h]

lemma afterFetch_status_error (init : ValidationState) (o : Oracles) (e : String)
    (h : o.scrape = Except.error e) : (afterFetch init o).status = Status.failed := by
  simp [afterFetch, applyUpdate, fetch_content_node, h]

lemma afterTriage_status (init : ValidationState) (o : Oracles) :
    (afterTriage init o).status = Status.running := by
  simp [afterTriage, applyUpdate, triage_node]

lemma faninState_status (init : ValidationState) (o : Oracles) :
    (faninState init o).status = Status.running := by
  unfold faninState
  rw [foldl_runAgentNode_status]
  exact afterTriage_status init o

lemma aggregate_node_status (s : ValidationState) :
    (aggregate_node s).status = some Status.awaiting_human := by
  by_cases h : s.findings.isEmpty <;> simp [aggregate_node, h]

lemma afterAggregate_status (init : ValidationState) (o : Oracles) :
    (afterAggregate init o).status = Status.awaiting_human := by
  simp [afterAggregate, applyUpdate, aggregate_node_status]

lemma pipelineChunks_error (init : ValidationState) (o : Oracles) (e : String)
    (h : o.scrape = Except.error e) :
    pipelineChunks init o = [init, afterFetch init o] := by
  unfold pipelineChunks
  rw [if_pos (afterFetch_status_error init o e h)]

lemma pipelineChunks_ok (init : ValidationState) (o : Oracles) (c : ScrapedContent)
    (h : o.scrape = Except.ok c) :
    pipelineChunks init o
      = [init, afterFetch init o, afterTriage init o, faninState init o,
         afterAggregate init o] := by
  unfold pipelineChunks
  rw [if_neg (by rw [afterFetch_status_ok init o c h]; decide)]

/-- C6: the lifecycle status never transitions backwards during a driven run:
the terminal failed status only ever appears in the final observed state
chunk (once a chunk reports failed, _run_pipeline stops consuming and the
suspended graph generator is never advanced, so no later step runs), and when
the fetch step fails no state of the run ever carries the running status set
by triage or fetch. -/
theorem C6_no_backward_transition (vid url requested_by created_at : String)
    (o : Oracles) :
    (∀ chunk ∈ (pipelineChunks (_initial_state vid url requested_by created_at) o).dropLast,
        chunk.status ≠ Status.failed) ∧
    (∀ e, o.scrape = Except.error e →
        ∀ chunk ∈ pipelineChunks (_initial_state vid url requested_by created_at) o,
          chunk.status ≠ Status.running) := by
  set init := _initial_state vid url requested_by created_at with hinit
  cases hs : o.scrape with
  | error e =>
      rw [pipelineChunks_error init o e hs]
      constructor
      · intro chunk hm
        simp only [List.dropLast, List.mem_singleton] at hm
        subst hm
        show Status.pending ≠ Status.failed
        decide
      · intro e' _ chunk hm
        rcases List.mem_cons.mp hm with rfl | hm
        · show Status.pending ≠ Status.running
          decide
        · rcases List.mem_singleton.mp hm with rfl
          rw [afterFetch_status_error init o e hs]
          decide
  | ok c =>
      constructor
      · rw [pipelineChunks_ok init o c hs]
        intro chunk hm
        simp only [List.dropLast] at hm
        rcases List.mem_cons.mp hm with rfl | hm
        · show Status.pending ≠ Status.failed
          decide
        rcases List.mem_cons.mp hm with rfl | hm
        · rw [afterFetch_status_ok init o c hs]; decide
        rcases List.mem_cons.mp hm with rfl | hm
        · rw [afterTriage_status init o]; decide
        rcases List.mem_singleton.mp hm with rfl
        rw [faninState_status init o]; decide
      · intro e he
        exact absurd he (by simp)

/-- Witness for C6: in the concrete failed-scrape run, the post-fetch state
(a member of the observed chunk sequence) never carries the running status. -/
theorem C6_no_backward_transition_witness :
    (afterFetch (_initial_state "vid-1" cUrl "web-user" "t0") cOraclesFail).status
      ≠ Status.running :=
  (C6_no_backward_transition "vid-1" cUrl "web-user" "t0" cOraclesFail).2 "boom" rfl _
    (by
      rw [pipelineChunks_error _ cOraclesFail "boom" rfl]
      exact List.mem_cons_of_mem _ (List.mem_singleton.mpr rfl))

/-! ### Claims C4 and C7: the fan-in findings list -/

lemma run_metadata_agent_errors (s : ValidationState) (l : Except String LLMJudgment) :
    (run_metadata_agent s l).errors = [] := by
  unfold run_metadata_agent
  repeat' split
  all_goals rfl

lemma run_editorial_agent_errors (s : ValidationState) (l : Except String LLMJudgment) :
    (run_editorial_agent s l).errors = [] := by
  unfold run_editorial_agent
  repeat' split
  all_goals rfl

lemma run_compliance_agent_errors (s : ValidationState) (l : Except String LLMJudgment) :
    (run_compliance_agent s l).errors = [] := by
  unfold run_compliance_agent
  repeat' split
  all_goals rfl

lemma run_accuracy_agent_errors (s : ValidationState) (l : Except String LLMJudgment) :
    (run_accuracy_agent s l).errors = [] := by
  unfold run_accuracy_agent
  repeat' split
  all_goals rfl

lemma run_empty_tag_agent_errors (s : ValidationState) (issues : List TagIssue) :
    (run_empty_tag_agent s issues).errors = [] := by
  unfold run_empty_tag_agent
  repeat' split
  all_goals rfl

lemma runAgentNode_errors (n : String) (s : ValidationState) (o : Oracles) :
    (runAgentNode n s o).errors = [] := by
  unfold runAgentNode
  split_ifs
  · exact run_metadata_agent_errors s o.metadataLLM
  · exact run_editorial_agent_errors s o.editorialLLM
  · exact run_compliance_agent_errors s o.complianceLLM
  · exact run_accuracy_agent_errors s o.accuracyLLM
  · exact run_empty_tag_agent_errors s o.emptyTagIssues
  · rfl

lemma foldl_runAgentNode_errors (snap : ValidationState) (o : Oracles)
    (nodes : List String) :
    ∀ s : ValidationState,
      (nodes.foldl (fun acc n => applyUpdate acc (runAgentNode n snap o)) s).errors
        = s.errors := by
  induction nodes with
  | nil => intro s; rfl
  | cons n t ih =>
      intro s
      rw [List.foldl_cons, ih]
      show (applyUpdate s (runAgentNode n snap o)).errors = s.errors
      simp [applyUpdate, runAgentNode_errors]

lemma afterTriage_scraped (init : ValidationState) (o : Oracles) (c : ScrapedContent)
    (h : o.scrape = Except.ok c) :
    (afterTriage init o).scraped_content = some c := by
  simp [afterTriage, afterFetch, applyUpdate, fetch_content_node, triage_node, h]

lemma afterTriage_routing (init : ValidationState) (o : Oracles) :
    (afterTriage init o).routing_decision = some
      { agents_to_run := some (if _is_hil_content init.url then
            ALL_STANDARD_AGENTS ++ HIL_EXTRA_AGENTS else ALL_STANDARD_AGENTS),
        agents_skipped := if _is_hil_content init.url then [] else HIL_EXTRA_AGENTS,
        content_type := if _is_hil_content init.url then "hil" else "standard",
        routing_method := "url_based",
        reasoning := [("empty_tag", if _is_hil_content init.url then "run:hil_content"
          else "skip:not_hil_content")] } := by
  have hurl : (afterFetch init o).url = init.url := rfl
  by_cases hh : _is_hil_content init.url <;>
    simp [afterTriage, applyUpdate, triage_node, hurl, hh]

lemma dispatch_afterTriage (init : ValidationState) (o : Oracles) :
    dispatch_agents (afterTriage init o)
      = (if _is_hil_content init.url then
          ["metadata_node", "editorial_node", "compliance_node", "accuracy_node",
           "empty_tag_node"]
        else
          ["metadata_node", "editorial_node", "compliance_node", "accuracy_node"]) := by
  by_cases hh : _is_hil_content init.url <;>
    simp [dispatch_agents, afterTriage_routing, hh, ALL_STANDARD_AGENTS,
      HIL_EXTRA_AGENTS, alistGet, AGENT_NODE_MAP]

lemma faninState_findings (init : ValidationState) (o : Oracles) :
    (faninState init o).findings
      = (afterTriage init o).findings
        ++ (run_metadata_agent (afterTriage init o) o.metadataLLM).findings
        ++ (run_editorial_agent (afterTriage init o) o.editorialLLM).findings
        ++ (run_compliance_agent (afterTriage init o) o.complianceLLM).findings
        ++ (run_accuracy_agent (afterTriage init o) o.accuracyLLM).findings
        ++ (if _is_hil_content init.url then
            (run_empty_tag_agent (afterTriage init o) o.emptyTagIssues).findings
          else []) := by
  unfold faninState
  show (List.foldl (fun acc node => applyUpdate acc (runAgentNode node (afterTriage init o) o))
      (afterTriage init o) (dispatch_agents (afterTriage init o))).findings = _
  rw [dispatch_afterTriage]
  by_cases hh : _is_hil_content init.url <;>
    simp [hh, List.foldl_cons, List.foldl_nil, applyUpdate, runAgentNode,
      List.append_assoc]

lemma afterTriage_findings_initial (vid url requested_by created_at : String)
    (o : Oracles) :
    (afterTriage (_initial_state vid url requested_by created_at) o).findings = [] := by
  cases hs : o.scrape <;>
    simp [afterTriage, afterFetch, applyUpdate, fetch_content_node, triage_node,
      _initial_state, hs]

lemma afterTriage_errors_initial_ok (vid url requested_by created_at : String)
    (o : Oracles) (c : ScrapedContent) (hs : o.scrape = Except.ok c) :
    (afterTriage (_initial_state vid url requested_by created_at) o).errors = [] := by
  simp [afterTriage, afterFetch, applyUpdate, fetch_content_node, triage_node,
    _initial_state, hs]

lemma fanin_findings_map (vid url requested_by created_at : String) (o : Oracles) :
    ((faninState (_initial_state vid url requested_by created_at) o).findings.map
        (fun f => f.agent))
      = (if _is_hil_content url then ALL_STANDARD_AGENTS ++ HIL_EXTRA_AGENTS
         else ALL_STANDARD_AGENTS) := by
  rw [faninState_findings]
  have hu : (_initial_state vid url requested_by created_at).url = url := rfl
  by_cases hh : _is_hil_content url <;>
    simp [hh, hu, List.map_append, run_metadata_agent_findings,
      run_editorial_agent_findings, run_compliance_agent_findings,
      run_accuracy_agent_findings, run_empty_tag_agent_findings,
      afterTriage_findings_initial, ALL_STANDARD_AGENTS, HIL_EXTRA_AGENTS]

/-- C4: after a successful fetch, the fan-in findings list carries exactly one
Verdict Record per step the Router chose to dispatch, whatever the agent
oracles did: the agent names in the findings list are exactly (and in
multiplicity one) the agents_to_run of the routing decision written by
triage. -/
theorem C4_one_verdict_per_dispatched_step (vid url requested_by created_at : String)
    (o : Oracles) (c : ScrapedContent) (_hfetch : o.scrape = Except.ok c) :
    ((faninState (_initial_state vid url requested_by created_at) o).findings.map
        (fun f => f.agent))
      = (if _is_hil_content url then ALL_STANDARD_AGENTS ++ HIL_EXTRA_AGENTS
         else ALL_STANDARD_AGENTS) ∧
    (afterTriage (_initial_state vid url requested_by created_at) o).routing_decision
      = some
        { agents_to_run := some (if _is_hil_content url then
              ALL_STANDARD_AGENTS ++ HIL_EXTRA_AGENTS else ALL_STANDARD_AGENTS),
          agents_skipped := if _is_hil_content url then [] else HIL_EXTRA_AGENTS,
          content_type := if _is_hil_content url then "hil" else "standard",
          routing_method := "url_based",
          reasoning := [("empty_tag", if _is_hil_content url then "run:hil_content"
            else "skip:not_hil_content")] } := by
  exact ⟨fanin_findings_map vid url requested_by created_at o, afterTriage_routing _ o⟩

/-- Witness for C4 on a concrete HIL run: all five dispatched agents
contribute exactly one record each. -/
theorem C4_one_verdict_per_dispatched_step_witness :
    ((faninState (_initial_state "vid-2" cUrlHil "web-user" "t0") cOraclesOk).findings.map
        (fun f => f.agent))
      = ["metadata", "editorial", "compliance", "accuracy", "empty_tag"] := by
  rw [(C4_one_verdict_per_dispatched_step "vid-2" cUrlHil "web-user" "t0" cOraclesOk
    cContent rfl).1]
  decide

lemma run_metadata_agent_error_findings (s : ValidationState) (c : ScrapedContent)
    (e : String) (h : s.scraped_content = some c) :
    (run_metadata_agent s (Except.error e)).findings
      = [{ agent := "metadata", passed := false, score := 0, passed_checks := [],
           issues := ["Agent error: " ++ e],
           recommendations := ["Check agent configuration and OpenAI API key"] }] := by
  simp [run_metadata_agent, h]

/-- C7 counterexample: at a concrete running state holding scraped content,
the metadata agent whose LLM call raises returns the zero-score failed
Verdict Record but adds NO entry to the run error list — its update leaves
the errors channel empty, contradicting the claimed error-list entry. -/
theorem C7_counterexample :
    (run_metadata_agent cStateWithContent (Except.error "boom")).findings
        = [{ agent := "metadata", passed := false, score := 0, passed_checks := [],
             issues := ["Agent error: boom"],
             recommendations := ["Check agent configuration and OpenAI API key"] }] ∧
    (run_metadata_agent cStateWithContent (Except.error "boom")).errors = [] := by
  exact ⟨rfl, rfl⟩

/-- C7 (amended): a dispatched step whose verdict-producing function raises
returns a partial update containing a zero-score failed Verdict Record (not
an exception) but no error-list entry; its failure aborts neither the sibling
steps (every dispatched agent still contributes its record) nor the run,
which still reaches the human gate with status awaiting_human and an empty
error list. -/
theorem C7_step_failure_isolated (vid url requested_by created_at e : String)
    (o : Oracles) (c : ScrapedContent) (hs : o.scrape = Except.ok c)
    (hm : o.metadataLLM = Except.error e) :
    (afterAggregate (_initial_state vid url requested_by created_at) o).status
        = Status.awaiting_human ∧
    ({ agent := "metadata", passed := false, score := 0, passed_checks := [],
       issues := ["Agent error: " ++ e],
       recommendations := ["Check agent configuration and OpenAI API key"] } : AgentFinding)
        ∈ (faninState (_initial_state vid url requested_by created_at) o).findings ∧
    ((faninState (_initial_state vid url requested_by created_at) o).findings.map
        (fun f => f.agent))
      = (if _is_hil_content url then ALL_STANDARD_AGENTS ++ HIL_EXTRA_AGENTS
         else ALL_STANDARD_AGENTS) ∧
    (faninState (_initial_state vid url requested_by created_at) o).errors = [] := by
  refine ⟨afterAggregate_status _ o, ?_, fanin_findings_map vid url requested_by
    created_at o, ?_⟩
  · rw [faninState_findings, hm,
      run_metadata_agent_error_findings _ c e (afterTriage_scraped _ o c hs)]
    simp
  · show (faninState (_initial_state vid url requested_by created_at) o).errors = []
    unfold faninState
    rw [foldl_runAgentNode_errors]
    exact afterTriage_errors_initial_ok vid url requested_by created_at o c hs

/-- Witness for C7: the concrete run whose metadata LLM call raises still
reaches the human gate. -/
theorem C7_step_failure_isolated_witness :
    (afterAggregate (_initial_state "vid-3" cUrl "web-user" "t0") cOraclesMetaFail).status
        = Status.awaiting_human ∧
    (faninState (_initial_state "vid-3" cUrl "web-user" "t0") cOraclesMetaFail).errors
        = [] := by
  have h := C7_step_failure_isolated "vid-3" cUrl "web-user" "t0" "boom"
    cOraclesMetaFail cContent rfl rfl
  exact ⟨h.1, h.2.2.2⟩

/-! ### Claims C1 and C3: suspend, resume, restart -/

lemma foldl_ingest_get (vid : String) (chunks : List ValidationState) :
    ∀ sys : AppSystem,
      alistGet ((chunks.foldl (fun acc chunk => ingestChunk acc vid chunk)
          sys)).server.validation_store vid
        = (match chunks.getLast? with
           | some chunk => some chunk
           | none => alistGet sys.server.validation_store vid) ∧
      alistGet ((chunks.foldl (fun acc chunk => ingestChunk acc vid chunk)
          sys)).server.memory_saver vid
        = (match chunks.getLast? with
           | some chunk => some chunk
           | none => alistGet sys.server.memory_saver vid) ∧
      alistGet ((chunks.foldl (fun acc chunk => ingestChunk acc vid chunk) sys)).db vid
        = (match chunks.getLast? with
           | some chunk => some (dbRowOf chunk)
           | none => alistGet sys.db vid) := by
  induction chunks with
  | nil => intro sys; exact ⟨rfl, rfl, rfl⟩
  | cons c t ih =>
      intro sys
      rw [List.foldl_cons]
      cases t with
      | nil =>
          refine ⟨?_, ?_, ?_⟩ <;>
            simp [ingestChunk, alistGet_alistPut_same]
      | cons c2 t2 =>
          have h := ih (ingestChunk sys vid c)
          rw [List.getLast?_cons_cons]
          cases hl : (c2 :: t2).getLast? with
          | none => simp at hl
          | some l => rw [hl] at h; exact h

lemma resumeChunks_eq (ck : ValidationState) (p : ResumePayload) :
    resumeChunks ck p
      = [applyUpdate ck (human_gate_node_resume p), resumeFinalState ck p] := rfl

lemma resumeFinalState_status (ck : ValidationState) (p : ResumePayload) :
    (resumeFinalState ck p).status = Status.approved ∨
    (resumeFinalState ck p).status = Status.rejected := by
  unfold resumeFinalState
  by_cases hr : route_after_human (applyUpdate ck (human_gate_node_resume p)) = "approve"
  · left; rw [if_pos hr]; rfl
  · right; rw [if_neg hr]; rfl

lemma resumeFinalState_status_approve (ck : ValidationState) (f r : Option String) :
    (resumeFinalState ck ⟨some "approve", f, r⟩).status = Status.approved := by
  have hr : route_after_human
      (applyUpdate ck (human_gate_node_resume ⟨some "approve", f, r⟩)) = "approve" := by
    simp [route_after_human, applyUpdate, human_gate_node_resume]
  unfold resumeFinalState
  rw [if_pos hr]
  rfl

lemma _resume_pipeline_spec (sys : AppSystem) (vid d f r : String) (ck : ValidationState)
    (hck : alistGet sys.server.memory_saver vid = some ck) :
    (_resume_pipeline sys vid d f r).2
        = statusToString (resumeFinalState ck ⟨some d, some f, some r⟩).status ∧
    alistGet (_resume_pipeline sys vid d f r).1.server.validation_store vid
        = some (resumeFinalState ck ⟨some d, some f, some r⟩) := by
  have hlast : (resumeChunks ck ⟨some d, some f, some r⟩).getLast?
      = some (resumeFinalState ck ⟨some d, some f, some r⟩) := by
    simp [resumeChunks_eq]
  have h := (foldl_ingest_get vid (resumeChunks ck ⟨some d, some f, some r⟩) sys).1
  rw [hlast] at h
  constructor
  · simp only [_resume_pipeline, hck]
    rw [h]
  · simp only [_resume_pipeline, hck]
    exact h

lemma decideAndResume_none (sys : AppSystem) (vid d f r : String)
    (h : lookupStatusForDecide sys vid = none) :
    decideAndResume sys vid d f r
      = { response := Except.error (404, "Validation not found"),
          done_status := none, system := sys } := by
  unfold decideAndResume
  rw [h]

lemma decideAndResume_wrong_status (sys : AppSystem) (vid d f r : String) (st : Status)
    (h : lookupStatusForDecide sys vid = some st) (hne : st ≠ Status.awaiting_human) :
    decideAndResume sys vid d f r
      = { response := Except.error (400,
            "Cannot submit decision: current status is " ++ statusToString st),
          done_status := none, system := sys } := by
  unfold decideAndResume
  rw [h]
  show (if st ≠ Status.awaiting_human then _ else _) = _
  rw [if_pos hne]

lemma decideAndResume_ok (sys : AppSystem) (vid d f r : String)
    (h : lookupStatusForDecide sys vid = some Status.awaiting_human) :
    decideAndResume sys vid d f r
      = { response := Except.ok "resuming",
          done_status := some (_resume_pipeline sys vid d f r).2,
          system := (_resume_pipeline sys vid d f r).1 } := by
  unfold decideAndResume
  rw [h]
  show (if Status.awaiting_human ≠ Status.awaiting_human then _ else _) = _
  rw [if_neg (by simp)]

lemma _resume_pipeline_no_checkpoint (sys : AppSystem) (vid d f r : String)
    (h : alistGet sys.server.memory_saver vid = none) :
    _resume_pipeline sys vid d f r = (sys, "failed") := by
  unfold _resume_pipeline
  rw [h]

lemma runToSuspend_spec (sys : AppSystem) (vid url requested_by created_at : String)
    (o : Oracles) (c : ScrapedContent) (hs : o.scrape = Except.ok c) :
    alistGet (runToSuspend sys vid url requested_by created_at o).server.validation_store
        vid
      = some (afterAggregate (_initial_state vid url requested_by created_at) o) ∧
    alistGet (runToSuspend sys vid url requested_by created_at o).server.memory_saver vid
      = some (afterAggregate (_initial_state vid url requested_by created_at) o) ∧
    alistGet (runToSuspend sys vid url requested_by created_at o).db vid
      = some (dbRowOf (afterAggregate (_initial_state vid url requested_by created_at) o)) := by
  have hlast : (pipelineChunks (_initial_state vid url requested_by created_at) o).getLast?
      = some (afterAggregate (_initial_state vid url requested_by created_at) o) := by
    rw [pipelineChunks_ok _ o c hs]
    rfl
  obtain ⟨h1, h2, h3⟩ := foldl_ingest_get vid
    (pipelineChunks (_initial_state vid url requested_by created_at) o)
    { server :=
        { validation_store := alistPut sys.server.validation_store vid
            (_initial_state vid url requested_by created_at)
          memory_saver := sys.server.memory_saver }
      db := alistPut sys.db vid (dbRowOf (_initial_state vid url requested_by created_at)) }
  rw [hlast] at h1 h2 h3
  exact ⟨h1, h2, h3⟩

lemma lookupStatus_runToSuspend (sys : AppSystem) (vid url requested_by created_at : String)
    (o : Oracles) (c : ScrapedContent) (hs : o.scrape = Except.ok c) :
    lookupStatusForDecide (runToSuspend sys vid url requested_by created_at o) vid
      = some Status.awaiting_human := by
  have h1 := (runToSuspend_spec sys vid url requested_by created_at o c hs).1
  simp [lookupStatusForDecide, h1, afterAggregate_status]

/-- C1 counterexample: a run suspended at the human gate before a process
restart cannot be resumed afterwards.  The decide request is even accepted
(the Postgres row still says awaiting_human), but the resume task fails (the
MemorySaver checkpoint lived only in process memory) and the run stays
awaiting_human forever instead of resuming from the suspend point. -/
theorem C1_counterexample :
    (decideAndResume (restartProcess (runToSuspend cEmptySystem "r1" cUrl "web-user" "t0"
        cOraclesOk)) "r1" "approve" "" "reviewer").response = Except.ok "resuming" ∧
    (decideAndResume (restartProcess (runToSuspend cEmptySystem "r1" cUrl "web-user" "t0"
        cOraclesOk)) "r1" "approve" "" "reviewer").done_status = some "failed" ∧
    lookupStatusForDecide
        (decideAndResume (restartProcess (runToSuspend cEmptySystem "r1" cUrl "web-user" "t0"
          cOraclesOk)) "r1" "approve" "" "reviewer").system "r1"
      = some Status.awaiting_human := by
  have hdb : alistGet (restartProcess (runToSuspend cEmptySystem "r1" cUrl "web-user" "t0"
        cOraclesOk)).db "r1"
      = some (dbRowOf (afterAggregate (_initial_state "r1" cUrl "web-user" "t0")
          cOraclesOk)) :=
    (runToSuspend_spec cEmptySystem "r1" cUrl "web-user" "t0" cOraclesOk cContent rfl).2.2
  have hlook : lookupStatusForDecide (restartProcess (runToSuspend cEmptySystem "r1" cUrl
        "web-user" "t0" cOraclesOk)) "r1" = some Status.awaiting_human := by
    show (alistGet (restartProcess (runToSuspend cEmptySystem "r1" cUrl "web-user" "t0"
        cOraclesOk)).db "r1").map (fun row => row.status) = some Status.awaiting_human
    rw [hdb]
    show some (afterAggregate (_initial_state "r1" cUrl "web-user" "t0") cOraclesOk).status
      = some Status.awaiting_human
    rw [afterAggregate_status]
  have hok := decideAndResume_ok (restartProcess (runToSuspend cEmptySystem "r1" cUrl
    "web-user" "t0" cOraclesOk)) "r1" "approve" "" "reviewer" hlook
  have hres := _resume_pipeline_no_checkpoint (restartProcess (runToSuspend cEmptySystem
    "r1" cUrl "web-user" "t0" cOraclesOk)) "r1" "approve" "" "reviewer" rfl
  refine ⟨?_, ?_, ?_⟩
  · rw [hok]
  · rw [hok]
    simp [hres]
  · rw [hok]
    simp only [hres]
    exact hlook

/-- C1 (amended): at the human-gate suspension the complete Run State is
captured under the run identity, but in the in-memory MemorySaver
checkpointer, not in durable storage: within the same process the run resumes
correctly from the suspend point (approve leads to done approved), while a
process restart erases the checkpoint (only the application-level Postgres
row survives), so the suspend capture does not survive a restart. -/
theorem C1_suspend_captured_in_process_memory (vid url requested_by created_at
    reviewer : String) (o : Oracles) (c : ScrapedContent) (hs : o.scrape = Except.ok c)
    (sys : AppSystem) :
    alistGet (runToSuspend sys vid url requested_by created_at o).server.memory_saver vid
      = some (afterAggregate (_initial_state vid url requested_by created_at) o) ∧
    (afterAggregate (_initial_state vid url requested_by created_at) o).status
      = Status.awaiting_human ∧
    (decideAndResume (runToSuspend sys vid url requested_by created_at o) vid "approve" ""
        reviewer).done_status = some "approved" ∧
    lookupStatusForDecide
        (decideAndResume (runToSuspend sys vid url requested_by created_at o) vid "approve"
          "" reviewer).system vid = some Status.approved ∧
    alistGet (restartProcess (runToSuspend sys vid url requested_by created_at
        o)).server.memory_saver vid = none := by
  obtain ⟨h1, h2, h3⟩ := runToSuspend_spec sys vid url requested_by created_at o c hs
  have hlook := lookupStatus_runToSuspend sys vid url requested_by created_at o c hs
  have hok := decideAndResume_ok (runToSuspend sys vid url requested_by created_at o)
    vid "approve" "" reviewer hlook
  obtain ⟨hr2, hr3⟩ := _resume_pipeline_spec (runToSuspend sys vid url requested_by
    created_at o) vid "approve" "" reviewer
    (afterAggregate (_initial_state vid url requested_by created_at) o) h2
  refine ⟨h2, afterAggregate_status _ o, ?_, ?_, rfl⟩
  · rw [hok]
    simp only [hr2, resumeFinalState_status_approve]
    rfl
  · rw [hok]
    simp [lookupStatusForDecide, hr3, resumeFinalState_status_approve]

/-- Witness for C1 (amended) at the concrete successful run. -/
theorem C1_suspend_captured_in_process_memory_witness :
    (decideAndResume (runToSuspend cEmptySystem "r1" cUrl "web-user" "t0" cOraclesOk)
        "r1" "approve" "" "reviewer").done_status = some "approved" :=
  (C1_suspend_captured_in_process_memory "r1" cUrl "web-user" "t0" "reviewer" cOraclesOk
    cContent rfl cEmptySystem).2.2.1

/-- C3: a decide (resume) request on an unknown run identity is rejected with
404 and on a run whose stored status is not awaiting_human with 400, in both
cases before any write, so the stored state is unchanged; and once a resume
has succeeded (possible only with the checkpoint present), the run's stored
status becomes approved or rejected, so an identical second decide request
deterministically fails with 400 and changes nothing. -/
theorem C3_resume_preconditions (sys : AppSystem) (vid decision feedback reviewer : String) :
    (lookupStatusForDecide sys vid = none →
      decideAndResume sys vid decision feedback reviewer
        = { response := Except.error (404, "Validation not found"),
            done_status := none, system := sys }) ∧
    (∀ st, lookupStatusForDecide sys vid = some st → st ≠ Status.awaiting_human →
      decideAndResume sys vid decision feedback reviewer
        = { response := Except.error (400,
              "Cannot submit decision: current status is " ++ statusToString st),
            done_status := none, system := sys }) ∧
    (∀ ck, lookupStatusForDecide sys vid = some Status.awaiting_human →
      alistGet sys.server.memory_saver vid = some ck →
      (decideAndResume sys vid decision feedback reviewer).response = Except.ok "resuming" ∧
      ∃ m, decideAndResume (decideAndResume sys vid decision feedback reviewer).system vid
            decision feedback reviewer
          = { response := Except.error (400, m), done_status := none,
              system := (decideAndResume sys vid decision feedback reviewer).system }) := by
  refine ⟨decideAndResume_none sys vid decision feedback reviewer,
    fun st h hne => decideAndResume_wrong_status sys vid decision feedback reviewer st h hne,
    fun ck h hck => ?_⟩
  have hok := decideAndResume_ok sys vid decision feedback reviewer h
  obtain ⟨hs2, hstore⟩ := _resume_pipeline_spec sys vid decision feedback reviewer ck hck
  constructor
  · rw [hok]
  · have hlook2 : lookupStatusForDecide
        (decideAndResume sys vid decision feedback reviewer).system vid
        = some (resumeFinalState ck ⟨some decision, some feedback, some reviewer⟩).status := by
      rw [hok]
      simp [lookupStatusForDecide, hstore]
    have hne2 : (resumeFinalState ck ⟨some decision, some feedback, some reviewer⟩).status
        ≠ Status.awaiting_human := by
      rcases resumeFinalState_status ck ⟨some decision, some feedback, some reviewer⟩ with
        h' | h' <;> rw [h'] <;> decide
    exact ⟨_, decideAndResume_wrong_status _ vid decision feedback reviewer _ hlook2 hne2⟩

/-- Witness for C3: the first decide on the concrete suspended run is
accepted. -/
theorem C3_resume_preconditions_witness :
    (decideAndResume (runToSuspend cEmptySystem "r1" cUrl "web-user" "t0" cOraclesOk)
        "r1" "approve" "" "reviewer").response = Except.ok "resuming" :=
  ((C3_resume_preconditions (runToSuspend cEmptySystem "r1" cUrl "web-user" "t0" cOraclesOk)
      "r1" "approve" "" "reviewer").2.2
    (afterAggregate (_initial_state "r1" cUrl "web-user" "t0") cOraclesOk)
    (lookupStatus_runToSuspend cEmptySystem "r1" cUrl "web-user" "t0" cOraclesOk cContent
      rfl)
    (runToSuspend_spec cEmptySystem "r1" cUrl "web-user" "t0" cOraclesOk cContent
      rfl).2.1).1
